import Mathlib

/-!
Verification of the YouTube-alarm application (`src/App.tsx`) against its
natural-language specification.

The repository ships two variants of the single-screen application, both in
`src/App.tsx` (separated by a document marker):

* variant 1 ("v1", lines 1–503): the push-notification build — functions
  `handleAlarmTrigger`, `loadAlarmData`, `saveAlarmData`, `startAlarmCheck`,
  `startVolumeIncrease`, `stopAlarm`, `getYouTubeVideoId`,
  `scheduleLocalNotification`;
* variant 2 ("v2", lines 505–950): the foreground-only build — functions
  `triggerAlarm`, `loadAlarmData`, `saveAlarmData`, `startAlarmCheck`,
  `startVolumeIncrease`, `stopAlarm`, `extractVideoId`.

The definitions below are a shallow embedding of those functions.  Timestamps
(JS `Date`) are milliseconds since the local epoch, modelled as `Nat`.
JavaScript timers are modelled explicitly: each `setInterval`/`setTimeout`
call allocates a fresh id and records a live timer; `clearInterval`/
`clearTimeout` removes the referenced timer (a no-op when it is no longer
live, exactly as in JS).  The `webViewRef.current` null-check guarding every
`postMessage` is modelled by the boolean field `webViewAttached`.
-/

/-- Kind of a JS timer armed by the app: the repeating 30-second volume-step
interval or the one-shot 10-minute auto-stop timeout. -/
inductive TimerKind
  | step
  | autoStop
deriving DecidableEq

/-- A live JS timer: its handle (`id`), its kind, and the interval/delay in
milliseconds it was armed with. -/
structure TimerRec where
  id : Nat
  kind : TimerKind
  ms : Nat
deriving DecidableEq

/-- A fire-and-forget message posted to the embedded WebView media
collaborator (`webViewRef.current?.postMessage(JSON.stringify({...}))`). -/
inductive Msg
  | play
  | setVolume (vol : Rat)
  | stop
deriving DecidableEq

/-- The component state of `App` relevant to the scheduler and the playback
ramp controller: the three persisted-config fields held in React state, the
runtime playback state, the two timer refs, the set of live timers, the next
fresh timer handle, and whether the WebView collaborator is mounted
(`webViewRef.current` non-null). -/
structure AppState where
  youtubeUrl : String
  alarmTime : String
  isAlarmEnabled : Bool
  isPlaying : Bool
  currentVolume : Nat
  playbackStartTime : Option Nat
  volumeIntervalRef : Option Nat
  stopIntervalRef : Option Nat
  timers : List TimerRec
  nextTimerId : Nat
  webViewAttached : Bool
deriving DecidableEq

/-- `clearInterval`/`clearTimeout` on handle `i`: the timer with that handle
stops being live; clearing a handle that is not live is a no-op. -/
def clearTimer (i : Nat) (ts : List TimerRec) : List TimerRec :=
  ts.filter (fun t => t.id != i)

/-- `setInterval`/`setTimeout`: allocate a fresh handle and record a live
timer of the given kind and delay.  Returns the handle and the new state. -/
def armTimer (k : TimerKind) (ms : Nat) (s : AppState) : Nat × AppState :=
  (s.nextTimerId,
   { s with timers := ⟨s.nextTimerId, k, ms⟩ :: s.timers,
            nextTimerId := s.nextTimerId + 1 })

/-- `listStartsWith pat cs` holds when `pat` is an initial segment of `cs`
(used to match the literal alternatives of the URL regexes). -/
def listStartsWith (pat cs : List Char) : Bool :=
  cs.take pat.length == pat

/-- Variant 2 `extractVideoId` (src/App.tsx:592–596), regex
`(?:youtube\.com\/watch\?v=|youtu\.be\/|youtube\.com\/embed\/)([^&\n?#]+)`:
a delimiter for the captured group is `&`, newline, `?` or `#`. -/
def isDelim2 (c : Char) : Bool :=
  c == '&' || c == '\n' || c == '?' || c == '#'

/-- One alternative of the v2 regex tried at the current position: the
literal prefix must occur here and the captured group `[^&\n?#]+` must be
non-empty, else this match attempt fails (and the scan moves on). -/
def tryOne2 (pat : String) (cs : List Char) : Option (List Char) :=
  if listStartsWith pat.toList cs then
    let tok := (cs.drop pat.toList.length).takeWhile (fun c => !isDelim2 c)
    if tok == [] then none else some tok
  else none

/-- The three alternatives of the v2 regex, tried in source order at one
position. -/
def tryAt2 (cs : List Char) : Option (List Char) :=
  (tryOne2 "youtube.com/watch?v=" cs).orElse fun _ =>
  (tryOne2 "youtu.be/" cs).orElse fun _ =>
  tryOne2 "youtube.com/embed/" cs

/-- Left-to-right scan of the unanchored v2 regex: the leftmost position at
which some alternative matches (with a non-empty captured group) wins. -/
def scan2 : List Char → Option (List Char)
  | [] => none
  | c :: rest =>
    match tryAt2 (c :: rest) with
    | some tok => some tok
    | none => scan2 rest

/-- Variant 2 `extractVideoId` (src/App.tsx:592–596): returns the captured
group of the first regex match, with no length check. -/
def extractVideoId (url : String) : Option String :=
  (scan2 url.toList).map String.mk

/-- A `\w` character of the v1 regex alternative `u\/\w\/`. -/
def isWordChar (c : Char) : Bool :=
  c.isAlpha || c.isDigit || c == '_'

/-- First alternative of the v1 regex, `youtu.be\/`: the dot is an unescaped
regex wildcard, so it is the nine-character shape `youtu⟨any non-newline⟩be/`. -/
def matchYoutuDotBe (cs : List Char) : Bool :=
  match cs with
  | 'y' :: 'o' :: 'u' :: 't' :: 'u' :: c :: 'b' :: 'e' :: '/' :: _ => c != '\n'
  | _ => false

/-- Third alternative of the v1 regex, `u\/\w\/`. -/
def matchUSlashW (cs : List Char) : Bool :=
  match cs with
  | 'u' :: '/' :: c :: '/' :: _ => isWordChar c
  | _ => false

/-- Variant 1 `getYouTubeVideoId` regex group 1 (src/App.tsx:246),
`(youtu.be\/|v\/|u\/\w\/|embed\/|watch\?v=|&v=)`, tried in source order at
one position; returns the length the alternative consumes. -/
def matchAltAt (cs : List Char) : Option Nat :=
  if matchYoutuDotBe cs then some 9
  else if listStartsWith "v/".toList cs then some 2
  else if matchUSlashW cs then some 4
  else if listStartsWith "embed/".toList cs then some 6
  else if listStartsWith "watch?v=".toList cs then some 8
  else if listStartsWith "&v=".toList cs then some 3
  else none

/-- The v1 regex is anchored as `^.*(…)([^#&?]*).*`: the greedy `^.*`
backtracks from the end, so group 1 matches at the rightmost position where
an alternative fits, and `^.*` cannot cross a newline, so only positions on
the first line are reachable.  Group 2 `[^#&?]*` then takes the maximal run
of non-`#&?` characters.  Returns group 2 for the winning position. -/
def findLastAlt : List Char → Option (List Char)
  | [] => none
  | c :: rest =>
    match (if c == '\n' then none else findLastAlt rest) with
    | some tok => some tok
    | none =>
      match matchAltAt (c :: rest) with
      | some len =>
        some (((c :: rest).drop len).takeWhile
          (fun ch => ch != '#' && ch != '&' && ch != '?'))
      | none => none

/-- Variant 1 `getYouTubeVideoId` (src/App.tsx:245–249): the regex match's
group 2, returned only when it is exactly 11 characters long. -/
def getYouTubeVideoId (url : String) : Option String :=
  match findLastAlt url.toList with
  | some tok => if tok.length == 11 then some (String.mk tok) else none
  | none => none

/-- Shared body of `startVolumeIncrease` at arm time (src/App.tsx:194–213 and
644–658): arm a repeating 30000 ms step interval and point
`volumeIntervalRef` at it.  Any previously referenced interval is NOT
cleared — the ref is simply overwritten.  The two variants differ only in
the interval's callback, modelled by `stepFire_v1` / `stepFire_v2`. -/
def startVolumeIncrease (s : AppState) : AppState :=
  let p := armTimer TimerKind.step 30000 s
  { p.2 with volumeIntervalRef := some p.1 }

/-- Error alert surfaced by a failed trigger (`Alert.alert('오류', …)`). -/
inductive TriggerError
  | noUrl
  | badUrl
deriving DecidableEq

/-- Variant 1 `handleAlarmTrigger` (src/App.tsx:122–139): fails only when
`youtubeUrl` is the empty string (JS `!youtubeUrl`); otherwise enters
Playing, resets the volume step to 1, records the start time, arms a step
interval via `startVolumeIncrease`, and arms the 10-minute one-shot
auto-stop timeout, pointing `stopIntervalRef` at it. -/
def handleAlarmTrigger (now : Nat) (s : AppState) : AppState × Option TriggerError :=
  if s.youtubeUrl = "" then (s, some TriggerError.noUrl)
  else
    let s1 := { s with isPlaying := true, currentVolume := 1,
                       playbackStartTime := some now }
    let s2 := startVolumeIncrease s1
    let p := armTimer TimerKind.autoStop (10 * 60 * 1000) s2
    ({ p.2 with stopIntervalRef := some p.1 }, none)

/-- Variant 2 `triggerAlarm` (src/App.tsx:618–641): additionally fails when
`extractVideoId` yields no identifier; otherwise identical to the v1
trigger body. -/
def triggerAlarm (now : Nat) (s : AppState) : AppState × Option TriggerError :=
  if s.youtubeUrl = "" then (s, some TriggerError.noUrl)
  else
    match extractVideoId s.youtubeUrl with
    | none => (s, some TriggerError.badUrl)
    | some _ =>
      let s1 := { s with isPlaying := true, currentVolume := 1,
                         playbackStartTime := some now }
      let s2 := startVolumeIncrease s1
      let p := armTimer TimerKind.autoStop (10 * 60 * 1000) s2
      ({ p.2 with stopIntervalRef := some p.1 }, none)

/-- Result of one fire of a v1 step interval: the interval callback's
closure-local `volume` counter after the fire, the new component state, and
the messages posted to the WebView. -/
structure StepFireResult where
  vol : Nat
  state : AppState
  msgs : List Msg
deriving DecidableEq

/-- One fire of the variant-1 step interval (src/App.tsx:196–211).  `vol` is
the callback's closure-local `volume` counter.  Below 8 it increments,
stores the new value into `currentVolume`, and posts
`setVolume (volume / 8)` (if the WebView is attached); at 8 it clears the
interval currently referenced by `volumeIntervalRef` and does nothing else. -/
def stepFire_v1 (vol : Nat) (s : AppState) : StepFireResult :=
  if vol < 8 then
    let v := vol + 1
    ⟨v, { s with currentVolume := v },
     if s.webViewAttached then [Msg.setVolume ((v : Rat) / 8)] else []⟩
  else
    ⟨vol,
     match s.volumeIntervalRef with
     | some i => { s with timers := clearTimer i s.timers }
     | none => s,
     []⟩

/-- One fire of the variant-2 step interval (src/App.tsx:645–657):
`setCurrentVolume(prev => Math.min(prev + 1, 8))`, posting
`setVolume (newVolume / 8)` on every fire (if the WebView is attached).
It never clears itself. -/
def stepFire_v2 (s : AppState) : AppState × List Msg :=
  let newVolume := min (s.currentVolume + 1) 8
  ({ s with currentVolume := newVolume },
   if s.webViewAttached then [Msg.setVolume ((newVolume : Rat) / 8)] else [])

/-- Variant 1 `stopAlarm` (src/App.tsx:216–232): leave Playing, reset the
volume step to 1, clear the start time, clear the timers referenced by
`volumeIntervalRef` and `stopIntervalRef` (the refs themselves are not
nulled in v1), and post `stop` (if the WebView is attached). -/
def stopAlarm_v1 (s : AppState) : AppState × List Msg :=
  let s1 := { s with isPlaying := false, currentVolume := 1,
                     playbackStartTime := none }
  let s2 := match s1.volumeIntervalRef with
            | some i => { s1 with timers := clearTimer i s1.timers }
            | none => s1
  let s3 := match s2.stopIntervalRef with
            | some i => { s2 with timers := clearTimer i s2.timers }
            | none => s2
  (s3, if s3.webViewAttached then [Msg.stop] else [])

/-- Variant 2 `stopAlarm` (src/App.tsx:661–682): as v1 but the two refs are
also set back to null after clearing. -/
def stopAlarm_v2 (s : AppState) : AppState × List Msg :=
  let s1 := { s with isPlaying := false, currentVolume := 1,
                     playbackStartTime := none }
  let s2 := match s1.volumeIntervalRef with
            | some i => { s1 with timers := clearTimer i s1.timers,
                                  volumeIntervalRef := none }
            | none => s1
  let s3 := match s2.stopIntervalRef with
            | some i => { s2 with timers := clearTimer i s2.timers,
                                  stopIntervalRef := none }
            | none => s2
  (s3, if s3.webViewAttached then [Msg.stop] else [])

/-- The 10-minute one-shot timeout with handle `i` fires (src/App.tsx:136–138
and 638–640): a fired one-shot is no longer pending, and its callback runs
the variant-1 `stopAlarm`. -/
def autoStopFire_v1 (i : Nat) (s : AppState) : AppState × List Msg :=
  stopAlarm_v1 { s with timers := clearTimer i s.timers }

/-- As `autoStopFire_v1`, with the variant-2 `stopAlarm` callback. -/
def autoStopFire_v2 (i : Nat) (s : AppState) : AppState × List Msg :=
  stopAlarm_v2 { s with timers := clearTimer i s.timers }

/-- JS `String.prototype.split(':')` on the character list of the string. -/
def splitCols : List Char → List (List Char)
  | [] => [[]]
  | c :: rest =>
    let r := splitCols rest
    if c = ':' then [] :: r
    else
      match r with
      | [] => [[c]]
      | h :: t => (c :: h) :: t

/-- A StrWhiteSpace character, trimmed by JS `Number()` before parsing
(space, tab, LF, CR, VT, FF, NBSP, BOM; more exotic Unicode space
separators do not occur in the material here). -/
def isStrWhite (c : Char) : Bool :=
  c == ' ' || c == '\t' || c == '\n' || c == '\r' || c == '\x0b' ||
  c == '\x0c' || c == '\u00A0' || c == '\uFEFF'

/-- Leading and trailing StrWhiteSpace removed. -/
def trimWhite (cs : List Char) : List Char :=
  ((cs.dropWhile isStrWhite).reverse.dropWhile isStrWhite).reverse

/-- Value of one hexadecimal digit character. -/
def hexVal (c : Char) : Option Nat :=
  if c.isDigit then some (c.toNat - 48)
  else if 'a' ≤ c && c ≤ 'f' then some (c.toNat - 87)
  else if 'A' ≤ c && c ≤ 'F' then some (c.toNat - 55)
  else none

/-- Digits of the given radix folded into a natural; `none` when a character
is not a digit of that radix. -/
def radixNatAux (radix : Nat) : List Char → Nat → Option Nat
  | [], acc => some acc
  | c :: rest, acc =>
    match hexVal c with
    | some d => if d < radix then radixNatAux radix rest (acc * radix + d) else none
    | none => none

/-- A JS non-decimal integer literal body (the part after `0x`/`0o`/`0b`):
at least one digit of the radix. -/
def radixNat (radix : Nat) (digs : List Char) : Option Nat :=
  if digs = [] then none else radixNatAux radix digs 0

/-- Decimal value of a digit run. -/
def digitsVal (ds : List Char) : Nat :=
  ds.foldl (fun acc c => acc * 10 + (c.toNat - 48)) 0

/-- Split off the leading run of decimal digits. -/
def splitDigits (cs : List Char) : List Char × List Char :=
  (cs.takeWhile Char.isDigit, cs.dropWhile Char.isDigit)

/-- The exponent part of a JS decimal literal: empty, or `e`/`E`, an
optional sign, and at least one digit.  `none` when the remainder is
anything else (the literal fails to parse). -/
def parseExp : List Char → Option Int
  | [] => some 0
  | c :: rest =>
    if c == 'e' || c == 'E' then
      match rest with
      | '+' :: ds =>
        if ds ≠ [] && ds.all Char.isDigit then some (digitsVal ds) else none
      | '-' :: ds =>
        if ds ≠ [] && ds.all Char.isDigit then some (-(digitsVal ds : Int)) else none
      | ds =>
        if ds ≠ [] && ds.all Char.isDigit then some (digitsVal ds) else none
    else none

/-- Exact rational value of the decimal literal with integer part `ip`,
fraction part `fp` and exponent `e`:
`(ip.fp) × 10^e = (ip·10^|fp| + fp) × 10^(e − |fp|)`. -/
def decValue (ip fp : List Char) (e : Int) : ℚ :=
  let base : Nat := digitsVal ip * 10 ^ fp.length + digitsVal fp
  match e - (fp.length : Int) with
  | Int.ofNat n => ((base * 10 ^ n : Nat) : ℚ)
  | Int.negSucc n => mkRat base (10 ^ (n + 1))

/-- A JS StrUnsignedDecimalLiteral other than `Infinity`:
`digits [. digits] [exp]` or `. digits [exp]`, with its exact rational
value. -/
def parseDecMag (cs : List Char) : Option ℚ :=
  let p := splitDigits cs
  match p.2 with
  | '.' :: rest2 =>
    let q := splitDigits rest2
    if p.1 = [] && q.1 = [] then none
    else (parseExp q.2).map fun e => decValue p.1 q.1 e
  | rest2 =>
    if p.1 = [] then none
    else (parseExp rest2).map fun e => decValue p.1 [] e

/-- A signed JS decimal literal.  `Infinity` (a number, not NaN) is mapped
to `none` as well: in every use this program makes of the parsed value —
`===`-comparison with a finite clock integer, and `setHours`, where a
non-finite argument yields an Invalid Date — `±Infinity` is observationally
identical to NaN. -/
def signedDec (cs : List Char) : Option ℚ :=
  match cs with
  | '+' :: rest => if rest = "Infinity".toList then none else parseDecMag rest
  | '-' :: rest =>
    if rest = "Infinity".toList then none else (parseDecMag rest).map Neg.neg
  | _ => if cs = "Infinity".toList then none else parseDecMag cs

/-- JS `Number()` on a whitespace-trimmed string: empty is 0; `0x`/`0o`/`0b`
radix literals (which admit no sign); otherwise a signed decimal literal. -/
def jsNumberVal (cs : List Char) : Option ℚ :=
  match cs with
  | [] => some 0
  | '0' :: c :: rest =>
    if c == 'x' || c == 'X' then (radixNat 16 rest).map (fun n => (n : ℚ))
    else if c == 'o' || c == 'O' then (radixNat 8 rest).map (fun n => (n : ℚ))
    else if c == 'b' || c == 'B' then (radixNat 2 rest).map (fun n => (n : ℚ))
    else signedDec cs
  | _ => signedDec cs

/-- JS `Number(piece)` with its exact mathematical value; `none` is NaN (or
`±Infinity`, see `signedDec`).  The one divergence from JS is that JS
rounds the exact value to a binary double — a string of seventeen or more
significant digits whose exact value is not an integer can round to an
integral double — while this model keeps the exact rational. -/
def jsNumber (cs : List Char) : Option ℚ :=
  jsNumberVal (trimWhite cs)

/-- JS `Number(part)` as consumed by this app: `some n` exactly when the
parsed value is a finite number equal to the natural `n` (so `"7"`, `" 7"`,
`"+7"`, `"7.0"`, `"0x7"`, `"7e0"` and `"-0"` all yield their integer, and
`Number("") = 0`).  A `none` (NaN, `±Infinity`, or a finite value that is
not a natural number) can never `===`-equal the natural clock components
the ticks compare against. -/
def jsNumberChars (cs : List Char) : Option Nat :=
  match jsNumber cs with
  | some q => if q.den = 1 && 0 ≤ q.num then some q.num.toNat else none
  | none => none

/-- `const [hours, minutes] = alarmTime.split(':').map(Number)`
(src/App.tsx:90 and 185): the first two pieces, `none` when a piece is
absent (`undefined`) or `NaN`. -/
def parseHM (t : String) : Option (Nat × Nat) :=
  let parts := splitCols t.toList
  match (parts[0]?).bind jsNumberChars, (parts[1]?).bind jsNumberChars with
  | some h, some m => some (h, m)
  | _, _ => none

/-- Milliseconds per day. -/
def msPerDay : Nat := 86400000

/-- Variant 1 `scheduleLocalNotification` (src/App.tsx:87–119): returns the
timestamp the local notification is armed for, or `none` when nothing
meaningful is armed.  `alarmDate.setHours(h, m, 0, 0)` places the alarm at
today's midnight plus `h` hours and `m` minutes; if that instant is `<= now`
the date is moved to the following day.  A time string with a NaN piece
produces a JS Invalid Date, modelled as `none`.  A piece parsing to a
finite value outside the naturals (negative or fractional, e.g. `"7.5"`)
makes `setHours` place the alarm at the corresponding non-natural offset;
such schedules fall outside this Nat-valued model (also `none` here), and
every property below constrains the time to parse as a natural pair. -/
def scheduleLocalNotification (isAlarmEnabled : Bool) (alarmTime : String)
    (now : Nat) : Option Nat :=
  if !isAlarmEnabled || alarmTime = "" then none
  else
    match parseHM alarmTime with
    | none => none
    | some (h, m) =>
      let alarmDate := now - now % msPerDay + (h * 60 + m) * 60000
      some (if alarmDate ≤ now then alarmDate + msPerDay else alarmDate)

/-- Follows the spec's words, for comparison with the code: "next wall-clock
timestamp ≥ now matching `targetTime`, rolling to the following day if the
time-of-day has already passed today" — the smallest timestamp `r ≥ now`
whose time-of-day is `h:m:00.000`. -/
def nextOccurrenceSpec (h m now : Nat) : Nat :=
  let today := now - now % msPerDay + (h * 60 + m) * 60000
  if now ≤ today then today else today + msPerDay

/-- The persisted `AlarmData` record (src/App.tsx:28–32). -/
structure AlarmData where
  youtubeUrl : String
  alarmTime : String
  isEnabled : Bool
deriving DecidableEq

/-- Outcome of a save: the record written to the store (the whole record,
unconditionally) and whether a validation error was surfaced. -/
structure SaveResult where
  stored : Option AlarmData
  validationError : Bool
deriving DecidableEq

/-- Variant 1 `saveAlarmData` (src/App.tsx:157–177): writes the record, then
if enabled arms the local notification via `scheduleLocalNotification`, else
cancels all notifications.  Returns the save outcome and the armed
notification timestamp (none when disabled/cancelled).  No validation. -/
def saveAlarmData_v1 (cfg : AlarmData) (now : Nat) : SaveResult × Option Nat :=
  (⟨some cfg, false⟩,
   if cfg.isEnabled then scheduleLocalNotification cfg.isEnabled cfg.alarmTime now
   else none)

/-- The config portion of the component state as the view sees it; `none`
models the JS value `undefined` stored into a React state variable. -/
structure ConfigState where
  youtubeUrl : Option String
  alarmTime : Option String
  isEnabled : Option Bool
deriving DecidableEq

/-- The initial config state (`useState('')`, `useState('07:00')`,
`useState(false)`, src/App.tsx:35–37 and 536–538), which coincides with the
documented default configuration. -/
def initialConfig : ConfigState :=
  ⟨some "", some "07:00", some false⟩

/-- A successfully parsed stored record; a `none` field models a field
absent from the parsed JSON (`undefined`). -/
structure StoredRecord where
  youtubeUrl : Option String
  alarmTime : Option String
  isEnabled : Option Bool
deriving DecidableEq

/-- What `AsyncStorage.getItem` + `JSON.parse` can produce: no record at
all, a record that fails to parse (the `catch` branch), or a parsed record
with possibly missing fields. -/
inductive StoreVal
  | malformed
  | record (d : StoredRecord)
deriving DecidableEq

/-- JS `x || dflt` for an optional string: `undefined` and `""` are falsy. -/
def jsOrString (v : Option String) (dflt : String) : String :=
  match v with
  | some s => if s = "" then dflt else s
  | none => dflt

/-- JS `x || dflt` for an optional boolean: `undefined` and `false` are
falsy. -/
def jsOrBool (v : Option Bool) (dflt : Bool) : Bool :=
  match v with
  | some b => if b then b else dflt
  | none => dflt

/-- Variant 1 `loadAlarmData` (src/App.tsx:142–154): a missing record or a
parse failure leaves the state untouched; a parsed record is copied into the
state field-by-field verbatim (missing fields become `undefined`). -/
def loadAlarmData_v1 (stored : Option StoreVal) (s : ConfigState) : ConfigState :=
  match stored with
  | none => s
  | some StoreVal.malformed => s
  | some (StoreVal.record d) => ⟨d.youtubeUrl, d.alarmTime, d.isEnabled⟩

/-- Variant 2 `loadAlarmData` (src/App.tsx:561–573): as v1, but each copied
field falls back to its default through JS `||`. -/
def loadAlarmData_v2 (stored : Option StoreVal) (s : ConfigState) : ConfigState :=
  match stored with
  | none => s
  | some StoreVal.malformed => s
  | some (StoreVal.record d) =>
    ⟨some (jsOrString d.youtubeUrl ""),
     some (jsOrString d.alarmTime "07:00"),
     some (jsOrBool d.isEnabled false)⟩

/-- A concrete idle component state with no configured URL: the initial
state right after mount, with the WebView attached. -/
def idleFixture : AppState :=
  { youtubeUrl := "", alarmTime := "07:00", isAlarmEnabled := false,
    isPlaying := false, currentVolume := 1, playbackStartTime := none,
    volumeIntervalRef := none, stopIntervalRef := none,
    timers := [], nextTimerId := 0, webViewAttached := true }

/-- A concrete idle component state with a well-formed video URL configured
and no live timers: the state from which a first trigger runs. -/
def readyFixture : AppState :=
  { youtubeUrl := "https://www.youtube.com/watch?v=dQw4w9WgXcQ",
    alarmTime := "07:00", isAlarmEnabled := true,
    isPlaying := false, currentVolume := 1, playbackStartTime := none,
    volumeIntervalRef := none, stopIntervalRef := none,
    timers := [], nextTimerId := 0, webViewAttached := true }

/-- A concrete mid-session Playing state: volume step 5, playback started
at 1000, the step interval (handle 0) and the auto-stop timeout (handle 1)
both live and referenced. -/
def playingFixture : AppState :=
  { youtubeUrl := "https://www.youtube.com/watch?v=dQw4w9WgXcQ",
    alarmTime := "07:00", isAlarmEnabled := true,
    isPlaying := true, currentVolume := 5, playbackStartTime := some 1000,
    volumeIntervalRef := some 0, stopIntervalRef := some 1,
    timers := [⟨0, TimerKind.step, 30000⟩, ⟨1, TimerKind.autoStop, 600000⟩],
    nextTimerId := 2, webViewAttached := true }

/-- A concrete idle state with a non-empty URL from which neither variant's
extractor can produce a video identifier. -/
def badUrlFixture : AppState :=
  { idleFixture with youtubeUrl := "not a youtube url" }

theorem mem_clearTimer {t : TimerRec} {i : Nat} {ts : List TimerRec}
    (h : t ∈ clearTimer i ts) : t ∈ ts ∧ t.id ≠ i := by
  rw [clearTimer, List.mem_filter] at h
  exact ⟨h.1, by simpa using h.2⟩

theorem clearTimer_idem (i : Nat) (ts : List TimerRec) :
    clearTimer i (clearTimer i ts) = clearTimer i ts := by
  simp [clearTimer, List.filter_filter]

theorem clearTimer_comm (i j : Nat) (ts : List TimerRec) :
    clearTimer i (clearTimer j ts) = clearTimer j (clearTimer i ts) := by
  simp [clearTimer, List.filter_filter, Bool.and_comm]

theorem clearTimer_pair_idem (i j : Nat) (ts : List TimerRec) :
    clearTimer j (clearTimer i (clearTimer j (clearTimer i ts)))
      = clearTimer j (clearTimer i ts) := by
  rw [clearTimer_comm i j (clearTimer i ts), clearTimer_idem, clearTimer_idem]

/-- Claim C1: the spec states that invoking the trigger while `phase =
Playing` is a no-op (volume step, start time and armed timers unchanged).
The code has no such guard in either variant's trigger function: evaluated
on a concrete Playing state (volume step 5, playback started at 1000, both
session timers live), both triggers succeed, reset the volume step to 1,
overwrite the start time, and arm a second step interval and a second
auto-stop timeout without clearing the first ones (four live timers
afterwards).  This contradicts the spec's stated invariant, which the
variant-2 tick guard (`!isPlaying`, src/App.tsx:611) shows to be the intent. -/
theorem trigger_while_playing_mutates_state :
    playingFixture.isPlaying = true ∧
    playingFixture.currentVolume = 5 ∧
    playingFixture.playbackStartTime = some 1000 ∧
    playingFixture.timers.length = 2 ∧
    (handleAlarmTrigger 2000 playingFixture).2 = none ∧
    (handleAlarmTrigger 2000 playingFixture).1.currentVolume = 1 ∧
    (handleAlarmTrigger 2000 playingFixture).1.playbackStartTime = some 2000 ∧
    (handleAlarmTrigger 2000 playingFixture).1.timers.length = 4 ∧
    (triggerAlarm 2000 playingFixture).2 = none ∧
    (triggerAlarm 2000 playingFixture).1.currentVolume = 1 ∧
    (triggerAlarm 2000 playingFixture).1.playbackStartTime = some 2000 ∧
    (triggerAlarm 2000 playingFixture).1.timers.length = 4 := by
  decide

/-- Claim C2, counterexample: the claim states that a trigger on a
configuration from which no video identifier can be extracted fails and
stays Idle.  For the non-empty URL `"not a youtube url"` neither extractor
yields an identifier, yet the variant-1 trigger raises no error, enters
Playing, and arms two timers. -/
theorem trigger_v1_unresolvable_url_enters_playing :
    getYouTubeVideoId badUrlFixture.youtubeUrl = none ∧
    extractVideoId badUrlFixture.youtubeUrl = none ∧
    badUrlFixture.isPlaying = false ∧
    (handleAlarmTrigger 0 badUrlFixture).2 = none ∧
    (handleAlarmTrigger 0 badUrlFixture).1.isPlaying = true ∧
    (handleAlarmTrigger 0 badUrlFixture).1.timers.length = 2 := by
  decide

/-- Claim C2, amended: in variant 2 a trigger whose `youtubeUrl` is empty or
yields no extractable identifier fails with an error and leaves the whole
state (including timers) unchanged; in variant 1 only the empty-URL case is
guarded that way — a non-empty unresolvable URL enters Playing. -/
theorem trigger_unconfigured_fails_atomically (now : Nat) (s : AppState)
    (h : s.youtubeUrl = "" ∨ extractVideoId s.youtubeUrl = none) :
    (triggerAlarm now s).1 = s ∧
    (triggerAlarm now s).2 ≠ none ∧
    (s.youtubeUrl = "" →
      handleAlarmTrigger now s = (s, some TriggerError.noUrl)) := by
  by_cases hu : s.youtubeUrl = ""
  · simp [triggerAlarm, handleAlarmTrigger, hu]
  · rcases h with h | h
    · exact absurd h hu
    · simp [triggerAlarm, handleAlarmTrigger, hu, h]

/-- Claim C2, witness: the amended theorem applied to the initial idle state
with the empty URL. -/
theorem trigger_unconfigured_fails_atomically_witness :
    (triggerAlarm 0 idleFixture).1 = idleFixture ∧
    (triggerAlarm 0 idleFixture).2 ≠ none ∧
    handleAlarmTrigger 0 idleFixture = (idleFixture, some TriggerError.noUrl) := by
  have h := trigger_unconfigured_fails_atomically 0 idleFixture (Or.inl rfl)
  exact ⟨h.1, h.2.1, h.2.2 rfl⟩

/-- Claim C3, counterexample: the claim states that once the volume step is
8 the step-timer self-cancels and no further messages are ever emitted.  A
variant-2 step fire on a state at step 8 leaves every timer live and still
posts a `setVolume 1.0` message. -/
theorem step_fire_v2_at_max_still_emits :
    ({ playingFixture with currentVolume := 8 } : AppState).currentVolume = 8 ∧
    (stepFire_v2 { playingFixture with currentVolume := 8 }).2
      = [Msg.setVolume 1] ∧
    (stepFire_v2 { playingFixture with currentVolume := 8 }).1.timers
      = playingFixture.timers := by
  refine ⟨rfl, ?_, rfl⟩
  show (if true then [Msg.setVolume (((min (8 + 1) 8 : Nat) : Rat) / 8)] else [])
        = [Msg.setVolume 1]
  norm_num

/-- Claim C3, amended: the variant-1 step fire behaves exactly as the claim
states — below step 8 it increments the closure counter and the stored step
by exactly 1 and posts `setVolume ((step+1)/8)`, a value in `[1/8, 1]`; at
step 8 it posts nothing, changes nothing, and cancels the referenced step
interval.  The variant-2 step fire increments-and-clamps the step
(`min (step+1) 8`, so the step still never exceeds 8 and rises by exactly 1
below 8) but never cancels its interval and posts a `setVolume` message on
every fire, including at step 8. -/
theorem step_fire_ramp_behaviour (vol : Nat) (s : AppState) (i : Nat)
    (hA : s.webViewAttached = true) (hvi : s.volumeIntervalRef = some i) :
    (vol < 8 →
      (stepFire_v1 vol s).vol = vol + 1 ∧
      (stepFire_v1 vol s).state = { s with currentVolume := vol + 1 } ∧
      (stepFire_v1 vol s).msgs = [Msg.setVolume (((vol + 1 : Nat) : Rat) / 8)] ∧
      (1 : Rat) / 8 ≤ ((vol + 1 : Nat) : Rat) / 8 ∧
      ((vol + 1 : Nat) : Rat) / 8 ≤ 1) ∧
    (¬ vol < 8 →
      (stepFire_v1 vol s).vol = vol ∧
      (stepFire_v1 vol s).msgs = [] ∧
      (stepFire_v1 vol s).state.currentVolume = s.currentVolume ∧
      ((stepFire_v1 vol s).state.timers.all fun t => t.id != i) = true) ∧
    ((stepFire_v2 s).1.currentVolume = min (s.currentVolume + 1) 8 ∧
     (stepFire_v2 s).2 = [Msg.setVolume (((min (s.currentVolume + 1) 8 : Nat) : Rat) / 8)] ∧
     (stepFire_v2 s).1.timers = s.timers) := by
  refine ⟨fun hlt => ?_, fun hge => ?_, ?_⟩
  · have h1 : (1 : Rat) ≤ ((vol + 1 : Nat) : Rat) := by
      exact_mod_cast Nat.le_add_left 1 vol
    have h2 : ((vol + 1 : Nat) : Rat) ≤ 8 := by
      exact_mod_cast (by omega : vol + 1 ≤ 8)
    refine ⟨?_, ?_, ?_, by linarith, by linarith⟩ <;>
      simp [stepFire_v1, hlt, hA]
  · have hstate : stepFire_v1 vol s
        = ⟨vol, { s with timers := clearTimer i s.timers }, []⟩ := by
      simp [stepFire_v1, if_neg hge, hvi]
    refine ⟨by rw [hstate], by rw [hstate], by rw [hstate], ?_⟩
    rw [hstate, List.all_eq_true]
    intro t ht
    have := mem_clearTimer ht
    simpa using this.2
  · refine ⟨rfl, ?_, rfl⟩
    simp [stepFire_v2, hA]

/-- Claim C3, witness: the amended theorem's variant-1 branch applied to a
step fire at volume step 3 on the concrete Playing state. -/
theorem step_fire_ramp_behaviour_witness :
    (stepFire_v1 3 playingFixture).vol = 3 + 1 ∧
    (stepFire_v1 3 playingFixture).state
      = { playingFixture with currentVolume := 3 + 1 } ∧
    (stepFire_v1 3 playingFixture).msgs
      = [Msg.setVolume (((3 + 1 : Nat) : Rat) / 8)] ∧
    (1 : Rat) / 8 ≤ ((3 + 1 : Nat) : Rat) / 8 ∧
    ((3 + 1 : Nat) : Rat) / 8 ≤ 1 :=
  (step_fire_ramp_behaviour 3 playingFixture 0 rfl rfl).1 (by decide)

/-- Claim C4: in both variants, the manual stop leaves Playing, resets the
volume step to 1, clears the start time, cancels both the referenced step
interval and the referenced auto-stop timeout, and posts exactly one `stop`
message to the attached WebView collaborator. -/
theorem stop_alarm_resets_and_emits_stop (s : AppState) (i j : Nat)
    (hA : s.webViewAttached = true)
    (hvi : s.volumeIntervalRef = some i) (hsj : s.stopIntervalRef = some j) :
    ((stopAlarm_v1 s).1.isPlaying = false ∧
     (stopAlarm_v1 s).1.currentVolume = 1 ∧
     (stopAlarm_v1 s).1.playbackStartTime = none ∧
     (stopAlarm_v1 s).2 = [Msg.stop] ∧
     ((stopAlarm_v1 s).1.timers.all fun t => t.id != i && t.id != j) = true) ∧
    ((stopAlarm_v2 s).1.isPlaying = false ∧
     (stopAlarm_v2 s).1.currentVolume = 1 ∧
     (stopAlarm_v2 s).1.playbackStartTime = none ∧
     (stopAlarm_v2 s).2 = [Msg.stop] ∧
     ((stopAlarm_v2 s).1.timers.all fun t => t.id != i && t.id != j) = true) := by
  have h1 : stopAlarm_v1 s
      = ({ s with isPlaying := false, currentVolume := 1,
                  playbackStartTime := none,
                  timers := clearTimer j (clearTimer i s.timers) },
         [Msg.stop]) := by
    simp [stopAlarm_v1, hvi, hsj, hA]
  have h2 : stopAlarm_v2 s
      = ({ s with isPlaying := false, currentVolume := 1,
                  playbackStartTime := none,
                  timers := clearTimer j (clearTimer i s.timers),
                  volumeIntervalRef := none, stopIntervalRef := none },
         [Msg.stop]) := by
    simp [stopAlarm_v2, hvi, hsj, hA]
  have hall : ((clearTimer j (clearTimer i s.timers)).all
      fun t => t.id != i && t.id != j) = true := by
    rw [List.all_eq_true]
    intro t ht
    have houter := mem_clearTimer ht
    have hinner := mem_clearTimer houter.1
    simp only [Bool.and_eq_true, bne_iff_ne, ne_eq]
    exact ⟨hinner.2, houter.2⟩
  exact ⟨⟨by rw [h1], by rw [h1], by rw [h1], by rw [h1], by rw [h1]; exact hall⟩,
         ⟨by rw [h2], by rw [h2], by rw [h2], by rw [h2], by rw [h2]; exact hall⟩⟩

/-- Claim C4, witness: the theorem applied to the concrete mid-session
Playing state (volume step 5, timers 0 and 1 live). -/
theorem stop_alarm_resets_and_emits_stop_witness :
    (stopAlarm_v1 playingFixture).1.isPlaying = false ∧
    (stopAlarm_v1 playingFixture).1.currentVolume = 1 ∧
    (stopAlarm_v1 playingFixture).1.playbackStartTime = none ∧
    (stopAlarm_v1 playingFixture).2 = [Msg.stop] ∧
    ((stopAlarm_v1 playingFixture).1.timers.all
      fun t => t.id != 0 && t.id != 1) = true :=
  (stop_alarm_resets_and_emits_stop playingFixture 0 1 rfl rfl rfl).1

/-- Claim C5: triggering from a state with no live timers arms (in both
variants) a one-shot auto-stop timeout of exactly `10 * 60 * 1000`
milliseconds, referenced by `stopIntervalRef`; when that timeout fires, its
callback runs `stopAlarm`, after which the phase is Idle and no timer of
the session (neither the step interval nor the auto-stop timeout) is live. -/
theorem auto_stop_after_ten_minutes (now : Nat) (s : AppState)
    (hT : s.timers = []) (hU : s.youtubeUrl ≠ "")
    (hX : extractVideoId s.youtubeUrl ≠ none) :
    ((handleAlarmTrigger now s).2 = none ∧
     (handleAlarmTrigger now s).1.stopIntervalRef = some (s.nextTimerId + 1) ∧
     TimerRec.mk (s.nextTimerId + 1) TimerKind.autoStop (10 * 60 * 1000)
       ∈ (handleAlarmTrigger now s).1.timers ∧
     (autoStopFire_v1 (s.nextTimerId + 1)
       (handleAlarmTrigger now s).1).1.isPlaying = false ∧
     (autoStopFire_v1 (s.nextTimerId + 1)
       (handleAlarmTrigger now s).1).1.timers = []) ∧
    ((triggerAlarm now s).2 = none ∧
     (triggerAlarm now s).1.stopIntervalRef = some (s.nextTimerId + 1) ∧
     TimerRec.mk (s.nextTimerId + 1) TimerKind.autoStop (10 * 60 * 1000)
       ∈ (triggerAlarm now s).1.timers ∧
     (autoStopFire_v2 (s.nextTimerId + 1)
       (triggerAlarm now s).1).1.isPlaying = false ∧
     (autoStopFire_v2 (s.nextTimerId + 1)
       (triggerAlarm now s).1).1.timers = []) := by
  obtain ⟨v, hv⟩ := Option.ne_none_iff_exists'.mp hX
  have hne : (s.nextTimerId != s.nextTimerId + 1) = true := by
    simp only [bne_iff_ne, ne_eq]
    omega
  have hclear : clearTimer (s.nextTimerId + 1)
      [TimerRec.mk (s.nextTimerId + 1) TimerKind.autoStop (10 * 60 * 1000),
       TimerRec.mk s.nextTimerId TimerKind.step 30000]
      = [TimerRec.mk s.nextTimerId TimerKind.step 30000] := by
    simp [clearTimer, hne]
  have hclear2 : clearTimer s.nextTimerId
      [TimerRec.mk s.nextTimerId TimerKind.step 30000]
      = ([] : List TimerRec) := by
    simp [clearTimer]
  have h1 : handleAlarmTrigger now s
      = ({ s with isPlaying := true, currentVolume := 1,
                  playbackStartTime := some now,
                  volumeIntervalRef := some s.nextTimerId,
                  stopIntervalRef := some (s.nextTimerId + 1),
                  timers :=
                    [TimerRec.mk (s.nextTimerId + 1) TimerKind.autoStop
                       (10 * 60 * 1000),
                     TimerRec.mk s.nextTimerId TimerKind.step 30000],
                  nextTimerId := s.nextTimerId + 2 }, none) := by
    simp [handleAlarmTrigger, startVolumeIncrease, armTimer, hU, hT]
  have h2 : triggerAlarm now s
      = ({ s with isPlaying := true, currentVolume := 1,
                  playbackStartTime := some now,
                  volumeIntervalRef := some s.nextTimerId,
                  stopIntervalRef := some (s.nextTimerId + 1),
                  timers :=
                    [TimerRec.mk (s.nextTimerId + 1) TimerKind.autoStop
                       (10 * 60 * 1000),
                     TimerRec.mk s.nextTimerId TimerKind.step 30000],
                  nextTimerId := s.nextTimerId + 2 }, none) := by
    simp [triggerAlarm, startVolumeIncrease, armTimer, hU, hT, hv]
  refine ⟨⟨by rw [h1], by rw [h1], by rw [h1]; exact List.mem_cons_self _ _, ?_, ?_⟩,
          ⟨by rw [h2], by rw [h2], by rw [h2]; exact List.mem_cons_self _ _, ?_, ?_⟩⟩
  · rw [h1]
    simp [autoStopFire_v1, stopAlarm_v1, hclear, hclear2]
  · rw [h1]
    simp [autoStopFire_v1, stopAlarm_v1, hclear, hclear2, clearTimer]
  · rw [h2]
    simp [autoStopFire_v2, stopAlarm_v2, hclear, hclear2]
  · rw [h2]
    simp [autoStopFire_v2, stopAlarm_v2, hclear, hclear2, clearTimer]

/-- Claim C5, witness: the theorem applied to the concrete configured idle
state; after the auto-stop timeout fires no timer is live. -/
theorem auto_stop_after_ten_minutes_witness :
    (autoStopFire_v1 (readyFixture.nextTimerId + 1)
      (handleAlarmTrigger 0 readyFixture).1).1.timers = [] :=
  (auto_stop_after_ten_minutes 0 readyFixture rfl (by decide)
    (by decide)).1.2.2.2.2

/-- Claim C6, counterexample: the claim states `nextOccurrence` is the next
matching timestamp greater than OR EQUAL to now.  At `now` = day 5 at
exactly 07:00:00.000 (457200000 ms), `now` itself matches `"07:00"`, yet
the code compares `alarmDate <= now` and therefore rolls to tomorrow. -/
theorem schedule_rolls_at_exact_match :
    457200000 % msPerDay = (7 * 60 + 0) * 60000 ∧
    scheduleLocalNotification true "07:00" 457200000
      = some (457200000 + msPerDay) ∧
    nextOccurrenceSpec 7 0 457200000 = 457200000 ∧
    scheduleLocalNotification true "07:00" 457200000
      ≠ some (nextOccurrenceSpec 7 0 457200000) := by
  decide

/-- Claim C6, amended: for an enabled save whose alarm time parses as
`(h, m)`, the armed notification timestamp is the next timestamp STRICTLY
greater than now whose time-of-day is `h:m:00.000` (the unique such
timestamp in `(now, now + 1 day]`); the claim's two scenario instances
(saved at 06:59:59 → today 07:00; saved at 07:00:01 → tomorrow 07:00) hold
as stated. -/
theorem next_occurrence_strictly_future (cfg : AlarmData) (now h m : Nat)
    (hE : cfg.isEnabled = true) (hp : parseHM cfg.alarmTime = some (h, m))
    (hh : h < 24) (hm : m < 60) :
    ((saveAlarmData_v1 cfg now).2).isSome = true ∧
    now < ((saveAlarmData_v1 cfg now).2).getD 0 ∧
    ((saveAlarmData_v1 cfg now).2).getD 0 ≤ now + msPerDay ∧
    ((saveAlarmData_v1 cfg now).2).getD 0 % msPerDay = (h * 60 + m) * 60000 ∧
    scheduleLocalNotification true "07:00" 457199000 = some 457200000 ∧
    scheduleLocalNotification true "07:00" 457201000
      = some (457200000 + msPerDay) := by
  have ht : cfg.alarmTime ≠ "" := by
    intro h0
    have hnone : parseHM "" = none := by decide
    rw [h0, hnone] at hp
    exact Option.noConfusion hp
  have hsched : scheduleLocalNotification true cfg.alarmTime now
      = some (if now - now % msPerDay + (h * 60 + m) * 60000 ≤ now
              then now - now % msPerDay + (h * 60 + m) * 60000 + msPerDay
              else now - now % msPerDay + (h * 60 + m) * 60000) := by
    simp [scheduleLocalNotification, ht, hp]
  have hsave : (saveAlarmData_v1 cfg now).2
      = scheduleLocalNotification true cfg.alarmTime now := by
    simp [saveAlarmData_v1, hE]
  rw [hsave, hsched]
  refine ⟨rfl, ?_, ?_, ?_, by decide, by decide⟩ <;>
    simp only [Option.getD_some, msPerDay] <;>
    split <;> omega

/-- Claim C6, witness: the amended theorem applied to an enabled save of
alarm time `"07:00"` at `now = 0`. -/
theorem next_occurrence_strictly_future_witness :
    0 < ((saveAlarmData_v1 ⟨"", "07:00", true⟩ 0).2).getD 0 :=
  (next_occurrence_strictly_future ⟨"", "07:00", true⟩ 0 7 0 rfl (by decide)
    (by decide) (by decide)).2.1

/-- Claim C8, counterexample: the claim states that a record with missing
fields loads as the documented defaults.  The variant-1 load copies a
parseable but field-less record verbatim, leaving every state variable
`undefined` rather than defaulted. -/
theorem load_v1_missing_fields_not_defaulted :
    loadAlarmData_v1 (some (StoreVal.record ⟨none, none, none⟩)) initialConfig
      ≠ initialConfig ∧
    (loadAlarmData_v1 (some (StoreVal.record ⟨none, none, none⟩))
      initialConfig).youtubeUrl = none := by
  decide

/-- Claim C8, amended: on a missing record or a parse failure both variants
leave the state at the documented defaults (`enabled=false`,
`targetTime="07:00"`, `mediaReference=""`) without failing; on a parseable
record with missing fields only variant 2 substitutes those defaults
field-by-field (via JS `||`, so a present-but-empty `alarmTime` also becomes
`"07:00"`), while variant 1 copies the missing fields verbatim as
`undefined`. -/
theorem load_fallback_behaviour :
    loadAlarmData_v1 none initialConfig = initialConfig ∧
    loadAlarmData_v1 (some StoreVal.malformed) initialConfig = initialConfig ∧
    loadAlarmData_v2 none initialConfig = initialConfig ∧
    loadAlarmData_v2 (some StoreVal.malformed) initialConfig = initialConfig ∧
    (∀ d : StoredRecord,
      loadAlarmData_v2 (some (StoreVal.record d)) initialConfig
        = ⟨some (jsOrString d.youtubeUrl ""),
           some (jsOrString d.alarmTime "07:00"),
           some (jsOrBool d.isEnabled false)⟩) ∧
    loadAlarmData_v2 (some (StoreVal.record ⟨none, none, none⟩)) initialConfig
      = initialConfig := by
  exact ⟨rfl, rfl, rfl, rfl, fun d => rfl, rfl⟩

/-- Claim C8, witness: the amended theorem's per-field-default branch
applied to the field-less record. -/
theorem load_fallback_behaviour_witness :
    loadAlarmData_v2 (some (StoreVal.record ⟨none, none, none⟩)) initialConfig
      = ⟨some (jsOrString none ""), some (jsOrString none "07:00"),
         some (jsOrBool none false)⟩ :=
  load_fallback_behaviour.2.2.2.2.1 ⟨none, none, none⟩

theorem tryOne2_ne_nil {pat : String} {cs tok : List Char}
    (h : tryOne2 pat cs = some tok) : tok ≠ [] := by
  simp only [tryOne2] at h
  split at h
  · split at h
    · exact Option.noConfusion h
    · rename_i hne
      cases h
      simpa using hne
  · exact Option.noConfusion h

theorem tryAt2_ne_nil {cs tok : List Char} (h : tryAt2 cs = some tok) :
    tok ≠ [] := by
  unfold tryAt2 at h
  cases h1 : tryOne2 "youtube.com/watch?v=" cs with
  | some t =>
    rw [h1] at h
    simp only [Option.orElse] at h
    cases h
    exact tryOne2_ne_nil h1
  | none =>
    rw [h1] at h
    simp only [Option.orElse] at h
    cases h2 : tryOne2 "youtu.be/" cs with
    | some t =>
      rw [h2] at h
      simp only [Option.orElse] at h
      cases h
      exact tryOne2_ne_nil h2
    | none =>
      rw [h2] at h
      simp only [Option.orElse] at h
      exact tryOne2_ne_nil h

theorem scan2_ne_nil {cs tok : List Char} (h : scan2 cs = some tok) :
    tok ≠ [] := by
  induction cs with
  | nil => exact Option.noConfusion h
  | cons c rest ih =>
    rw [scan2] at h
    cases h1 : tryAt2 (c :: rest) with
    | some t =>
      rw [h1] at h
      cases h
      exact tryAt2_ne_nil h1
    | none =>
      rw [h1] at h
      exact ih h

/-- Claim C9, counterexample: the claim states the extraction function only
ever returns 11-character identifiers.  The variant-2 extractor has no
length check: on `"https://youtu.be/abc"` it returns the 3-character token
`"abc"`. -/
theorem extract_v2_three_char_token :
    extractVideoId "https://youtu.be/abc" = some "abc" ∧
    ("abc" : String).length ≠ 11 := by
  decide

/-- Claim C9, amended: the variant-1 extractor indeed returns an
11-character token or nothing, for every URL (though its shape set also
covers `v/` and `u/⟨word-char⟩/`, and the unescaped dot of `youtu.be`
matches any character); the variant-2 extractor performs no length check
and guarantees only a non-empty token, so identifiers of any non-zero
length can be returned. -/
theorem extractor_length_behaviour (url1 url2 s1 s2 : String)
    (h1 : getYouTubeVideoId url1 = some s1)
    (h2 : extractVideoId url2 = some s2) :
    s1.length = 11 ∧ 1 ≤ s2.length := by
  constructor
  · unfold getYouTubeVideoId at h1
    cases he : findLastAlt url1.toList with
    | none => rw [he] at h1; exact Option.noConfusion h1
    | some tok =>
      rw [he] at h1
      dsimp only at h1
      by_cases hlen : (tok.length == 11) = true
      · rw [if_pos hlen] at h1
        injection h1 with h1
        subst h1
        simpa using hlen
      · rw [if_neg hlen] at h1
        exact Option.noConfusion h1
  · unfold extractVideoId at h2
    cases hs : scan2 url2.toList with
    | none => rw [hs] at h2; exact Option.noConfusion h2
    | some tok =>
      rw [hs] at h2
      simp only [Option.map_some'] at h2
      injection h2 with h2
      subst h2
      have hne := scan2_ne_nil hs
      show 1 ≤ tok.length
      have := List.length_pos.mpr hne
      omega

/-- Claim C9, witness: the amended theorem applied to a canonical
`watch?v=` URL (v1, 11 characters) and the short `youtu.be` URL (v2, a
3-character token). -/
theorem extractor_length_behaviour_witness :
    ("dQw4w9WgXcQ" : String).length = 11 ∧ 1 ≤ ("abc" : String).length :=
  extractor_length_behaviour "https://www.youtube.com/watch?v=dQw4w9WgXcQ"
    "https://youtu.be/abc" "dQw4w9WgXcQ" "abc" (by decide) (by decide)

/-- Claim C10: stop is not guarded by phase.  Invoked on an already-idle
state it leaves the runtime state fields unchanged (Idle, volume step 1, no
start time) yet still posts a `stop` message; consequently two consecutive
stops yield the same state as one, in both variants, while each stop posts
its own `stop` message — idempotent on state, not on emitted messages. -/
theorem stop_idempotent_on_state (s : AppState) (hA : s.webViewAttached = true)
    (hI : s.isPlaying = false) (hV : s.currentVolume = 1)
    (hP : s.playbackStartTime = none) :
    (stopAlarm_v1 s).1.isPlaying = s.isPlaying ∧
    (stopAlarm_v1 s).1.currentVolume = s.currentVolume ∧
    (stopAlarm_v1 s).1.playbackStartTime = s.playbackStartTime ∧
    (stopAlarm_v1 s).2 = [Msg.stop] ∧
    (stopAlarm_v2 s).2 = [Msg.stop] ∧
    (stopAlarm_v1 (stopAlarm_v1 s).1).1 = (stopAlarm_v1 s).1 ∧
    (stopAlarm_v2 (stopAlarm_v2 s).1).1 = (stopAlarm_v2 s).1 ∧
    (stopAlarm_v1 (stopAlarm_v1 s).1).2 = [Msg.stop] ∧
    (stopAlarm_v2 (stopAlarm_v2 s).1).2 = [Msg.stop] := by
  rcases hvi : s.volumeIntervalRef with _ | i <;>
    rcases hsj : s.stopIntervalRef with _ | j <;>
      simp [stopAlarm_v1, stopAlarm_v2, hvi, hsj, hA, hI, hV, hP,
        clearTimer_idem, clearTimer_pair_idem]

/-- Claim C10, witness: the theorem applied to the concrete idle state —
stop leaves it unchanged up to the already-idle fields, a second stop
changes nothing further, and each stop posts one `stop` message. -/
theorem stop_idempotent_on_state_witness :
    (stopAlarm_v1 (stopAlarm_v1 idleFixture).1).1 = (stopAlarm_v1 idleFixture).1 ∧
    (stopAlarm_v1 idleFixture).2 = [Msg.stop] :=
  ⟨(stop_idempotent_on_state idleFixture rfl rfl rfl rfl).2.2.2.2.2.1,
   (stop_idempotent_on_state idleFixture rfl rfl rfl rfl).2.2.2.1⟩
